import Mathlib

/-!
Shallow embedding of `crates/rmcp/src/transport/rate_limited.rs`: a per-category
token-bucket rate limiter wrapped around a message transport.

Modelling conventions:
- `u32` values become `Nat`; the one `u32` multiplication reachable from input
  (`max_per_second * 60` in validation) is taken modulo `2^32` to mirror wrapping.
- `f64` token counts and monotonic instants become `Rat`: every operation the
  claims exercise (casts of `u32`, `min`, `max`, adding and subtracting integral
  quantities) is exact in both number systems.
- `Instant::now()` becomes an explicit `now : Rat` argument threaded to each
  mutating call; `now.saturating_duration_since(last_refill)` becomes
  `max (now - last_refill) 0`.
- The async mutexes serialize all limiter access, so `send`, `receive`, `close`
  and `check_limit` become sequential functions from state to (result, state).
- The external message taxonomy (`ClientRequest` etc., defined outside this
  crate) is modelled by its variants named in the classifier, plus one
  catch-all constructor per type standing for every remaining variant.
-/

namespace RateLimited

/-- Message types for rate limiting classification (the `MessageType` enum). -/
inductive MessageType where
  | ProgressNotification
  | LoggingMessage
  | SamplingRequest
  | CompletionRequest
  | ElicitationRequest
  | ToolCall
  | Other
deriving DecidableEq

/-- Token bucket configuration (`TokenBucketConfig`): rate and burst, both `u32`. -/
structure TokenBucketConfig where
  max_per_second : Nat
  burst_capacity : Nat
deriving DecidableEq

/-- Configuration validation errors (`ConfigError`). -/
inductive ConfigError where
  | InvalidRateLimit (value : Nat)
  | InvalidBurstCapacity (value : Nat)
  | UnreasonableBurst (rate : Nat) (burst : Nat)
deriving DecidableEq

/-- `TokenBucketConfig::new`: validated construction.  The `u32` product
`max_per_second * 60` is reduced mod `2^32` to mirror wrapping arithmetic
(unreachable in practice because `max_per_second ≤ 100000` at that point). -/
def TokenBucketConfig.new (max_per_second : Nat) (burst_capacity : Nat) :
    Except ConfigError TokenBucketConfig :=
  if max_per_second = 0 ∨ max_per_second > 100000 then
    .error (.InvalidRateLimit max_per_second)
  else if burst_capacity = 0 ∨ burst_capacity > 10000 then
    .error (.InvalidBurstCapacity burst_capacity)
  else if burst_capacity > (max_per_second * 60) % 2 ^ 32 then
    .error (.UnreasonableBurst max_per_second burst_capacity)
  else
    .ok ⟨max_per_second, burst_capacity⟩

/-- `TokenBucketConfig::new_unchecked`: construction bypassing validation. -/
def TokenBucketConfig.new_unchecked (max_per_second : Nat) (burst_capacity : Nat) :
    TokenBucketConfig :=
  ⟨max_per_second, burst_capacity⟩

/-- `impl Default for TokenBucketConfig`: `new_unchecked(10, 5)`. -/
def TokenBucketConfig.default : TokenBucketConfig :=
  TokenBucketConfig.new_unchecked 10 5

/-- Rate limiting configuration for different message types (`RateLimitConfig`). -/
structure RateLimitConfig where
  progress_notifications : TokenBucketConfig
  logging_messages : TokenBucketConfig
  sampling_requests : TokenBucketConfig
  completion_requests : TokenBucketConfig
  elicitation_requests : TokenBucketConfig
  tool_calls : TokenBucketConfig
  other : TokenBucketConfig
deriving DecidableEq

/-- `impl Default for RateLimitConfig`: the built-in per-category table. -/
def RateLimitConfig.default : RateLimitConfig where
  progress_notifications := TokenBucketConfig.new_unchecked 10 5
  logging_messages := TokenBucketConfig.new_unchecked 50 10
  sampling_requests := TokenBucketConfig.new_unchecked 2 1
  completion_requests := TokenBucketConfig.new_unchecked 5 2
  elicitation_requests := TokenBucketConfig.new_unchecked 1 1
  tool_calls := TokenBucketConfig.new_unchecked 20 5
  other := TokenBucketConfig.new_unchecked 100 20

/-- Token bucket state (`TokenBucket`): fractional token count, last refill
instant, and its configuration. -/
structure TokenBucket where
  tokens : Rat
  last_refill : Rat
  config : TokenBucketConfig
deriving DecidableEq

/-- `TokenBucket::new`: a full bucket, stamped with the current instant. -/
def TokenBucket.new (now : Rat) (config : TokenBucketConfig) : TokenBucket :=
  { tokens := (config.burst_capacity : Rat)
    last_refill := now
    config := config }

/-- `MAX_ELAPSED_SECS` constant from `TokenBucket::refill`: 24 hours. -/
def MAX_ELAPSED_SECS : Rat := 86400

/-- `TokenBucket::refill`: clamp elapsed time to 24 hours, add
`elapsed * rate` tokens (the code writes it as `elapsed.mul_add(rate, 0.0)`),
clamp the result into `[0, burst]`, and advance `last_refill` unconditionally. -/
def TokenBucket.refill (now : Rat) (b : TokenBucket) : TokenBucket :=
  let elapsed : Rat := max (now - b.last_refill) 0
  let elapsed_secs : Rat := min elapsed MAX_ELAPSED_SECS
  let tokens_to_add : Rat := elapsed_secs * (b.config.max_per_second : Rat) + 0
  { b with
    tokens := max (min (b.tokens + tokens_to_add) (b.config.burst_capacity : Rat)) 0
    last_refill := now }

/-- `TokenBucket::try_consume`: refill, then take one token if at least one is
available. Returns the success flag together with the new bucket state. -/
def TokenBucket.try_consume (now : Rat) (b : TokenBucket) : Bool × TokenBucket :=
  let b2 := b.refill now
  if b2.tokens ≥ 1 then (true, { b2 with tokens := b2.tokens - 1 })
  else (false, b2)

/-- One mutating call on a bucket, tagged with the instant at which it runs:
either a bare `refill` or a `try_consume`. -/
inductive BucketOp where
  | refillOp (now : Rat)
  | consumeOp (now : Rat)

/-- Apply one `BucketOp` to a bucket, keeping only the resulting state. -/
def TokenBucket.apply_op (b : TokenBucket) : BucketOp → TokenBucket
  | .refillOp now => b.refill now
  | .consumeOp now => (b.try_consume now).2

/-- Run a finite sequence of bucket operations from left to right. -/
def TokenBucket.run_ops (b : TokenBucket) (ops : List BucketOp) : TokenBucket :=
  ops.foldl TokenBucket.apply_op b

/-- Call `try_consume` `n` times in a row at one instant, collecting the
returned flags and the final bucket. -/
def TokenBucket.consume_repeat (now : Rat) : TokenBucket → Nat → List Bool × TokenBucket
  | b, 0 => ([], b)
  | b, n + 1 =>
    let r := b.try_consume now
    let rest := TokenBucket.consume_repeat now r.2 n
    (r.1 :: rest.1, rest.2)

/-- Runtime rate limiting errors (`RateLimitError`). -/
inductive RateLimitError where
  | Exceeded (message_type : MessageType)
  | Config (e : ConfigError)
deriving DecidableEq

/-- Layered transport error (`RateLimitedTransportError<E>`): rate-limit origin
versus inner-transport origin. -/
inductive RateLimitedTransportError (E : Type) where
  | RateLimit (e : RateLimitError)
  | Transport (e : E)

/-- Client request taxonomy (external `ClientRequest` enum): the two variants
the classifier names, plus a catch-all for every remaining variant. -/
inductive ClientRequest where
  | CompleteRequest (payload : Nat)
  | CallToolRequest (payload : Nat)
  | OtherClientRequest (payload : Nat)
deriving DecidableEq

/-- Server request taxonomy (external `ServerRequest` enum): the two variants
the classifier names, plus a catch-all for every remaining variant. -/
inductive ServerRequest where
  | CreateMessageRequest (payload : Nat)
  | CreateElicitationRequest (payload : Nat)
  | OtherServerRequest (payload : Nat)
deriving DecidableEq

/-- Client notification taxonomy (external `ClientNotification` enum). -/
inductive ClientNotification where
  | ProgressNotification (payload : Nat)
  | OtherClientNotification (payload : Nat)
deriving DecidableEq

/-- Server notification taxonomy (external `ServerNotification` enum). -/
inductive ServerNotification where
  | ProgressNotification (payload : Nat)
  | LoggingMessageNotification (payload : Nat)
  | OtherServerNotification (payload : Nat)
deriving DecidableEq

/-- A request payload as seen by `classify_request`, which dispatches on
whether the generic request type is `ClientRequest` or `ServerRequest`. -/
inductive Request where
  | client (r : ClientRequest)
  | server (r : ServerRequest)
deriving DecidableEq

/-- A notification payload as seen by `classify_notification`. -/
inductive Notification where
  | client (n : ClientNotification)
  | server (n : ServerNotification)
deriving DecidableEq

/-- Outbound JSON-RPC envelope (external `JsonRpcMessage` enum): requests and
notifications carry a taxonomy payload; responses and errors are the
non-request, non-notification shapes the classifier sends to `Other`. -/
inductive JsonRpcMessage where
  | request (id : Nat) (request : Request)
  | notification (notification : Notification)
  | response (id : Nat) (payload : Nat)
  | error (id : Nat) (payload : Nat)
deriving DecidableEq

/-- `classify_client_request`: the client-request rows of the fixed table. -/
def classify_client_request : ClientRequest → MessageType
  | .CompleteRequest _ => .CompletionRequest
  | .CallToolRequest _ => .ToolCall
  | .OtherClientRequest _ => .Other

/-- `classify_server_request`: the server-request rows of the fixed table. -/
def classify_server_request : ServerRequest → MessageType
  | .CreateMessageRequest _ => .SamplingRequest
  | .CreateElicitationRequest _ => .ElicitationRequest
  | .OtherServerRequest _ => .Other

/-- `classify_client_notification`. -/
def classify_client_notification : ClientNotification → MessageType
  | .ProgressNotification _ => .ProgressNotification
  | .OtherClientNotification _ => .Other

/-- `classify_server_notification`. -/
def classify_server_notification : ServerNotification → MessageType
  | .ProgressNotification _ => .ProgressNotification
  | .LoggingMessageNotification _ => .LoggingMessage
  | .OtherServerNotification _ => .Other

/-- `classify_request`: dispatch on the concrete request type (the Rust code
does this with `TypeId` downcasts over the generic parameter). -/
def classify_request : Request → MessageType
  | .client r => classify_client_request r
  | .server r => classify_server_request r

/-- `classify_notification`: dispatch on the concrete notification type. -/
def classify_notification : Notification → MessageType
  | .client n => classify_client_notification n
  | .server n => classify_server_notification n

/-- `classify_message`: requests and notifications go to their classifiers;
every other envelope shape is `Other`. -/
def classify_message : JsonRpcMessage → MessageType
  | .request _ r => classify_request r
  | .notification n => classify_notification n
  | .response _ _ => .Other
  | .error _ _ => .Other

/-- `MessageRateLimiter`: the per-category bucket map (a `HashMap` in the
code, embedded as a function into `Option TokenBucket`). -/
structure MessageRateLimiter where
  buckets : MessageType → Option TokenBucket

/-- `MessageRateLimiter::new`: one bucket per category, seeded from the
supplied configuration, every bucket present. -/
def MessageRateLimiter.new (now : Rat) (config : RateLimitConfig) : MessageRateLimiter where
  buckets := fun t =>
    match t with
    | .ProgressNotification => some (TokenBucket.new now config.progress_notifications)
    | .LoggingMessage => some (TokenBucket.new now config.logging_messages)
    | .SamplingRequest => some (TokenBucket.new now config.sampling_requests)
    | .CompletionRequest => some (TokenBucket.new now config.completion_requests)
    | .ElicitationRequest => some (TokenBucket.new now config.elicitation_requests)
    | .ToolCall => some (TokenBucket.new now config.tool_calls)
    | .Other => some (TokenBucket.new now config.other)

/-- `MessageRateLimiter::check_limit`: classify, look up the bucket, try to
consume; a missing bucket allows the message; a failed consume yields
`Exceeded` carrying the category.  The bucket map is updated in place with
the post-consume bucket (the warning log is pure observability and is not
modelled). -/
def MessageRateLimiter.check_limit (now : Rat) (l : MessageRateLimiter)
    (msg : JsonRpcMessage) : Except RateLimitError Unit × MessageRateLimiter :=
  let msg_type := classify_message msg
  match l.buckets msg_type with
  | some bucket =>
    let r := bucket.try_consume now
    let l2 : MessageRateLimiter :=
      ⟨fun t => if t = msg_type then some r.2 else l.buckets t⟩
    if r.1 then (.ok (), l2) else (.error (.Exceeded msg_type), l2)
  | none => (.ok (), l)

/-- The wrapped inner transport, observed at its boundary: the log of messages
its `send` has received, the outcome its `send` returns per message, the queue
its `receive` yields from, and the outcome its `close` returns (`none` means
success, `some e` the inner error). `E` is the inner error type and `Rx` the
inbound message type. -/
structure InnerTransport (E : Type) (Rx : Type) where
  sent : List JsonRpcMessage
  send_result : JsonRpcMessage → Option E
  recv_queue : List Rx
  close_result : Option E

/-- `RateLimitedTransport<T>`: the decorator state, pairing the inner
transport with the shared rate limiter. -/
structure RateLimitedTransport (E : Type) (Rx : Type) where
  inner : InnerTransport E Rx
  rate_limiter : MessageRateLimiter

/-- `RateLimitedTransport::send`: check the rate limit first; on denial return
the rate-limit error without touching the inner transport; on approval forward
the unmodified message once and propagate the inner result, wrapping an inner
failure as the `Transport` variant. -/
def RateLimitedTransport.send {E Rx : Type} (now : Rat) (item : JsonRpcMessage)
    (st : RateLimitedTransport E Rx) :
    Except (RateLimitedTransportError E) Unit × RateLimitedTransport E Rx :=
  let chk := st.rate_limiter.check_limit now item
  match chk.1 with
  | .error e => (.error (.RateLimit e), { st with rate_limiter := chk.2 })
  | .ok _ =>
    let inner2 := { st.inner with sent := st.inner.sent ++ [item] }
    match st.inner.send_result item with
    | none => (.ok (), { st with inner := inner2, rate_limiter := chk.2 })
    | some e => (.error (.Transport e), { st with inner := inner2, rate_limiter := chk.2 })

/-- `RateLimitedTransport::receive`: pass straight through to the inner
transport; the rate limiter is never consulted. -/
def RateLimitedTransport.receive {E Rx : Type} (st : RateLimitedTransport E Rx) :
    Option Rx × RateLimitedTransport E Rx :=
  (st.inner.recv_queue.head?,
    { st with inner := { st.inner with recv_queue := st.inner.recv_queue.tail } })

/-- `RateLimitedTransport::close`: pass straight through, wrapping an inner
failure as the `Transport` variant; the rate limiter is never consulted. -/
def RateLimitedTransport.close {E Rx : Type} (st : RateLimitedTransport E Rx) :
    Except (RateLimitedTransportError E) Unit × RateLimitedTransport E Rx :=
  match st.inner.close_result with
  | none => (.ok (), st)
  | some e => (.error (.Transport e), st)

/-- Restatement of validated construction following the spec: the three
invariants `1 ≤ rate ≤ 100000`, `1 ≤ burst ≤ 10000`, `burst ≤ 60 * rate`
checked in that order, the first violated one reported with its numbers. -/
def TokenBucketConfig.new_spec (rate : Nat) (burst : Nat) :
    Except ConfigError TokenBucketConfig :=
  if ¬(1 ≤ rate ∧ rate ≤ 100000) then .error (.InvalidRateLimit rate)
  else if ¬(1 ≤ burst ∧ burst ≤ 10000) then .error (.InvalidBurstCapacity burst)
  else if ¬(burst ≤ 60 * rate) then .error (.UnreasonableBurst rate burst)
  else .ok ⟨rate, burst⟩

/-- A single bucket operation leaves the configuration untouched. -/
theorem TokenBucket.apply_op_config (b : TokenBucket) (op : BucketOp) :
    (b.apply_op op).config = b.config := by
  cases op with
  | refillOp now => rfl
  | consumeOp now =>
    simp only [TokenBucket.apply_op, TokenBucket.try_consume]
    split <;> rfl

/-- After any single `refill` the token count lies in `[0, burst]`,
whatever the incoming state was. -/
theorem TokenBucket.refill_tokens_mem (b : TokenBucket) (now : Rat) :
    0 ≤ (b.refill now).tokens ∧
      (b.refill now).tokens ≤ ((b.refill now).config.burst_capacity : Rat) := by
  refine ⟨le_max_right _ _, ?_⟩
  show max (min _ _) 0 ≤ _
  exact max_le (min_le_right _ _) (by positivity)

/-- After any single `try_consume` the token count lies in `[0, burst]`. -/
theorem TokenBucket.try_consume_tokens_mem (b : TokenBucket) (now : Rat) :
    0 ≤ (b.try_consume now).2.tokens ∧
      (b.try_consume now).2.tokens ≤ (((b.try_consume now).2.config.burst_capacity : Rat)) := by
  have h := b.refill_tokens_mem now
  simp only [TokenBucket.try_consume]
  split
  next h1 => dsimp only; constructor <;> linarith [h.1, h.2]
  next h1 => dsimp only; exact h

/-- A whole run of operations leaves the configuration untouched. -/
theorem TokenBucket.run_ops_config (ops : List BucketOp) :
    ∀ b : TokenBucket, (b.run_ops ops).config = b.config := by
  induction ops with
  | nil => intro b; rfl
  | cons op rest ih =>
    intro b
    simp only [TokenBucket.run_ops, List.foldl_cons] at *
    rw [ih (b.apply_op op), b.apply_op_config op]

/-- A run of operations started inside `[0, burst]` stays inside `[0, burst]`. -/
theorem TokenBucket.run_ops_inv (ops : List BucketOp) :
    ∀ b : TokenBucket, 0 ≤ b.tokens → b.tokens ≤ (b.config.burst_capacity : Rat) →
      0 ≤ (b.run_ops ops).tokens ∧
        (b.run_ops ops).tokens ≤ ((b.run_ops ops).config.burst_capacity : Rat) := by
  induction ops with
  | nil => intro b h0 h1; exact ⟨h0, h1⟩
  | cons op rest ih =>
    intro b h0 h1
    have h3 : 0 ≤ (b.apply_op op).tokens ∧
        (b.apply_op op).tokens ≤ ((b.apply_op op).config.burst_capacity : Rat) := by
      cases op with
      | refillOp now => exact b.refill_tokens_mem now
      | consumeOp now => exact b.try_consume_tokens_mem now
    simp only [TokenBucket.run_ops, List.foldl_cons] at *
    exact ih (b.apply_op op) h3.1 h3.2

/-- C2: every bucket created by `new`, subjected to any finite sequence of
`refill` and `try_consume` calls at arbitrary instants (so with arbitrary
non-negative elapsed times between them, a simulated year included), satisfies
`0 ≤ tokens ≤ config.burst` after each call. -/
theorem tokens_invariant (config : TokenBucketConfig) (now0 : Rat)
    (ops : List BucketOp) :
    0 ≤ ((TokenBucket.new now0 config).run_ops ops).tokens ∧
      ((TokenBucket.new now0 config).run_ops ops).tokens ≤ (config.burst_capacity : Rat) := by
  have h := TokenBucket.run_ops_inv ops (TokenBucket.new now0 config)
    (by exact_mod_cast Nat.cast_nonneg config.burst_capacity) (le_refl _)
  have hc := TokenBucket.run_ops_config ops (TokenBucket.new now0 config)
  refine ⟨h.1, ?_⟩
  have h2 := h.2
  rw [hc] at h2
  exact h2

/-- C10: every built-in default configuration — `TokenBucketConfig::default`
and the seven category entries of `RateLimitConfig::default`, each built via
`new_unchecked`, which bypasses the checks — is accepted unchanged by the
validated constructor `TokenBucketConfig::new`. -/
theorem defaults_pass_validation :
    TokenBucketConfig.new TokenBucketConfig.default.max_per_second
        TokenBucketConfig.default.burst_capacity = .ok TokenBucketConfig.default ∧
    TokenBucketConfig.new RateLimitConfig.default.progress_notifications.max_per_second
        RateLimitConfig.default.progress_notifications.burst_capacity =
      .ok RateLimitConfig.default.progress_notifications ∧
    TokenBucketConfig.new RateLimitConfig.default.logging_messages.max_per_second
        RateLimitConfig.default.logging_messages.burst_capacity =
      .ok RateLimitConfig.default.logging_messages ∧
    TokenBucketConfig.new RateLimitConfig.default.sampling_requests.max_per_second
        RateLimitConfig.default.sampling_requests.burst_capacity =
      .ok RateLimitConfig.default.sampling_requests ∧
    TokenBucketConfig.new RateLimitConfig.default.completion_requests.max_per_second
        RateLimitConfig.default.completion_requests.burst_capacity =
      .ok RateLimitConfig.default.completion_requests ∧
    TokenBucketConfig.new RateLimitConfig.default.elicitation_requests.max_per_second
        RateLimitConfig.default.elicitation_requests.burst_capacity =
      .ok RateLimitConfig.default.elicitation_requests ∧
    TokenBucketConfig.new RateLimitConfig.default.tool_calls.max_per_second
        RateLimitConfig.default.tool_calls.burst_capacity =
      .ok RateLimitConfig.default.tool_calls ∧
    TokenBucketConfig.new RateLimitConfig.default.other.max_per_second
        RateLimitConfig.default.other.burst_capacity =
      .ok RateLimitConfig.default.other :=
  ⟨rfl, rfl, rfl, rfl, rfl, rfl, rfl, rfl⟩

/-- C6: `classify_message` realises exactly the fixed disjoint table — the six
named variants map to their categories, every other request or notification
variant and every non-request, non-notification envelope shape (responses,
errors) maps to `Other` — and, being a pure function, it is deterministic
across repeated calls on the same message. -/
theorem classify_message_table :
    (∀ i p, classify_message (.request i (.client (.CompleteRequest p))) = .CompletionRequest) ∧
    (∀ i p, classify_message (.request i (.client (.CallToolRequest p))) = .ToolCall) ∧
    (∀ i p, classify_message (.request i (.server (.CreateMessageRequest p))) = .SamplingRequest) ∧
    (∀ i p, classify_message (.request i (.server (.CreateElicitationRequest p))) =
      .ElicitationRequest) ∧
    (∀ p, classify_message (.notification (.client (.ProgressNotification p))) =
      .ProgressNotification) ∧
    (∀ p, classify_message (.notification (.server (.ProgressNotification p))) =
      .ProgressNotification) ∧
    (∀ p, classify_message (.notification (.server (.LoggingMessageNotification p))) =
      .LoggingMessage) ∧
    (∀ i p, classify_message (.request i (.client (.OtherClientRequest p))) = .Other) ∧
    (∀ i p, classify_message (.request i (.server (.OtherServerRequest p))) = .Other) ∧
    (∀ p, classify_message (.notification (.client (.OtherClientNotification p))) = .Other) ∧
    (∀ p, classify_message (.notification (.server (.OtherServerNotification p))) = .Other) ∧
    (∀ i p, classify_message (.response i p) = .Other) ∧
    (∀ i p, classify_message (.error i p) = .Other) ∧
    (∀ m, classify_message m = classify_message m) :=
  ⟨fun _ _ => rfl, fun _ _ => rfl, fun _ _ => rfl, fun _ _ => rfl,
   fun _ => rfl, fun _ => rfl, fun _ => rfl,
   fun _ _ => rfl, fun _ _ => rfl, fun _ => rfl, fun _ => rfl,
   fun _ _ => rfl, fun _ _ => rfl, fun _ => rfl⟩

/-- C5: validated construction agrees with the spec-side restatement (three
invariants checked in order, first violation reported with its numbers), and
succeeds with exactly the supplied pair precisely when all three hold. -/
theorem config_new_matches_spec (rate : Nat) (burst : Nat) :
    TokenBucketConfig.new rate burst = TokenBucketConfig.new_spec rate burst ∧
    (TokenBucketConfig.new rate burst = .ok ⟨rate, burst⟩ ↔
      1 ≤ rate ∧ rate ≤ 100000 ∧ 1 ≤ burst ∧ burst ≤ 10000 ∧ burst ≤ 60 * rate) := by
  constructor
  · unfold TokenBucketConfig.new TokenBucketConfig.new_spec
    split_ifs <;> first | rfl | (exfalso; omega)
  · unfold TokenBucketConfig.new
    split_ifs with h1 h2 h3
    · exact ⟨fun hx => absurd hx (by simp), fun hx => by exfalso; omega⟩
    · exact ⟨fun hx => absurd hx (by simp), fun hx => by exfalso; omega⟩
    · exact ⟨fun hx => absurd hx (by simp), fun hx => by exfalso; omega⟩
    · exact ⟨fun _ => by omega, fun _ => rfl⟩

/-- C3: one `refill` after a non-negative elapsed time `e` sets the token
count to `min burst (max 0 (tokens + min e 86400 * rate))` and advances
`last_refill` to `now` unconditionally. -/
theorem refill_formula (b : TokenBucket) (now : Rat) (h : 0 ≤ now - b.last_refill) :
    (b.refill now).tokens =
      min ((b.config.burst_capacity : Rat))
        (max 0 (b.tokens + min (now - b.last_refill) 86400 * (b.config.max_per_second : Rat))) ∧
    (b.refill now).last_refill = now := by
  refine ⟨?_, rfl⟩
  have hB : (0 : Rat) ≤ (b.config.burst_capacity : Rat) := Nat.cast_nonneg _
  simp only [TokenBucket.refill, MAX_ELAPSED_SECS, max_eq_left h, add_zero]
  simp only [min_def, max_def]
  split_ifs <;> linarith

/-- Witness for `refill_formula` at a concrete bucket and instant. -/
theorem refill_formula_witness :
    (0 : Rat) ≤ 1 - (⟨5, 0, ⟨10, 5⟩⟩ : TokenBucket).last_refill ∧
    (((⟨5, 0, ⟨10, 5⟩⟩ : TokenBucket).refill 1).tokens =
      min (((⟨5, 0, ⟨10, 5⟩⟩ : TokenBucket).config.burst_capacity : Rat))
        (max 0 ((⟨5, 0, ⟨10, 5⟩⟩ : TokenBucket).tokens +
          min (1 - (⟨5, 0, ⟨10, 5⟩⟩ : TokenBucket).last_refill) 86400 *
            ((⟨5, 0, ⟨10, 5⟩⟩ : TokenBucket).config.max_per_second : Rat))) ∧
      ((⟨5, 0, ⟨10, 5⟩⟩ : TokenBucket).refill 1).last_refill = 1) :=
  ⟨by norm_num, refill_formula (⟨5, 0, ⟨10, 5⟩⟩ : TokenBucket) 1 (by norm_num)⟩

/-- Unfolding lemma: one step of `consume_repeat`. -/
theorem TokenBucket.consume_repeat_succ (now : Rat) (b : TokenBucket) (n : Nat) :
    b.consume_repeat now (n + 1) =
      ((b.try_consume now).1 :: ((b.try_consume now).2.consume_repeat now n).1,
        ((b.try_consume now).2.consume_repeat now n).2) := rfl

/-- Refilling at the very instant of the last refill leaves an in-range
bucket unchanged. -/
theorem TokenBucket.refill_self (b : TokenBucket) (h0 : 0 ≤ b.tokens)
    (h1 : b.tokens ≤ (b.config.burst_capacity : Rat)) :
    b.refill b.last_refill = b := by
  obtain ⟨t, lr, c⟩ := b
  dsimp only at h0 h1
  unfold TokenBucket.refill
  dsimp only
  congr 1
  have e : min (0 : Rat) MAX_ELAPSED_SECS = 0 := min_eq_left (by norm_num [MAX_ELAPSED_SECS])
  rw [sub_self, max_self, e, zero_mul, add_zero, add_zero, min_eq_left h1, max_eq_left h0]

/-- With zero elapsed time, a bucket holding exactly `k ≤ burst` tokens
admits exactly `k` consumes, then one failure, ending empty. -/
theorem TokenBucket.consume_repeat_exact (k : Nat) :
    ∀ b : TokenBucket, b.tokens = (k : Rat) → k ≤ b.config.burst_capacity →
      b.consume_repeat b.last_refill (k + 1) =
        (List.replicate k true ++ [false], { b with tokens := 0 }) := by
  induction k with
  | zero =>
    intro b ht hk
    have hr : b.refill b.last_refill = b :=
      b.refill_self (by rw [ht]; norm_num) (by rw [ht]; exact_mod_cast Nat.zero_le _)
    have hfail : b.try_consume b.last_refill = (false, b) := by
      unfold TokenBucket.try_consume
      dsimp only
      rw [hr, if_neg (by rw [ht]; norm_num)]
    have hb : ({ b with tokens := 0 } : TokenBucket) = b := by
      obtain ⟨t, lr, c⟩ := b
      dsimp only at ht
      rw [Nat.cast_zero] at ht
      subst ht
      rfl
    rw [TokenBucket.consume_repeat_succ, hfail, hb]
    rfl
  | succ k ih =>
    intro b ht hk
    have h0 : (0 : Rat) ≤ b.tokens := by rw [ht]; positivity
    have h1 : b.tokens ≤ (b.config.burst_capacity : Rat) := by rw [ht]; exact_mod_cast hk
    have hr : b.refill b.last_refill = b := b.refill_self h0 h1
    have hge : b.tokens ≥ 1 := by
      rw [ht]; exact_mod_cast Nat.succ_le_succ (Nat.zero_le k)
    have hsub : b.tokens - 1 = (k : Rat) := by rw [ht]; push_cast; ring
    have hstep : b.try_consume b.last_refill = (true, { b with tokens := (k : Rat) }) := by
      unfold TokenBucket.try_consume
      dsimp only
      rw [hr, if_pos hge, hsub]
    have ihb := ih { b with tokens := (k : Rat) } rfl (Nat.le_of_succ_le hk)
    dsimp only at ihb
    rw [TokenBucket.consume_repeat_succ, hstep]
    dsimp only
    rw [ihb]
    simp [List.replicate_succ]

/-- C4: a bucket freshly created by `new` starts with `tokens = burst`; with
zero elapsed time, exactly `burst` consecutive `try_consume` calls succeed and
the next one fails, the bucket ending with zero tokens and nothing mutated
beyond the token count. -/
theorem fresh_bucket_exact_burst (config : TokenBucketConfig) (now : Rat) :
    (TokenBucket.new now config).tokens = (config.burst_capacity : Rat) ∧
    (TokenBucket.new now config).consume_repeat now (config.burst_capacity + 1) =
      (List.replicate config.burst_capacity true ++ [false],
        { TokenBucket.new now config with tokens := 0 }) :=
  ⟨rfl, TokenBucket.consume_repeat_exact config.burst_capacity
    (TokenBucket.new now config) rfl (le_refl _)⟩

/-- C7: `check_limit` classifies the message and returns `Exceeded` with that
category exactly when the category's bucket exists and its `try_consume`
fails; a classified category with no bucket is allowed (fail-open); and the
only state change is the refill/consume of the classified category's bucket —
every other entry of the map is untouched. -/
theorem check_limit_spec (now : Rat) (l : MessageRateLimiter) (msg : JsonRpcMessage) :
    ((l.check_limit now msg).1 = .error (.Exceeded (classify_message msg)) ↔
      ∃ b, l.buckets (classify_message msg) = some b ∧ (b.try_consume now).1 = false) ∧
    ((l.check_limit now msg).1 = .ok () ↔
      (l.buckets (classify_message msg) = none ∨
        ∃ b, l.buckets (classify_message msg) = some b ∧ (b.try_consume now).1 = true)) ∧
    ((l.check_limit now msg).2.buckets = fun t =>
      if t = classify_message msg then
        Option.map (fun b => (b.try_consume now).2) (l.buckets t)
      else l.buckets t) := by
  rcases hb : l.buckets (classify_message msg) with _ | bucket
  · refine ⟨?_, ?_, ?_⟩
    · simp [MessageRateLimiter.check_limit, hb]
    · simp [MessageRateLimiter.check_limit, hb]
    · funext t
      by_cases hc : t = classify_message msg
      · subst hc
        simp [MessageRateLimiter.check_limit, hb]
      · simp [MessageRateLimiter.check_limit, hb, hc]
  · cases hr : (bucket.try_consume now).1
    · refine ⟨?_, ?_, ?_⟩
      · simp [MessageRateLimiter.check_limit, hb, hr]
      · simp [MessageRateLimiter.check_limit, hb, hr]
      · funext t
        by_cases hc : t = classify_message msg
        · subst hc
          simp [MessageRateLimiter.check_limit, hb, hr]
        · simp [MessageRateLimiter.check_limit, hb, hr, hc]
    · refine ⟨?_, ?_, ?_⟩
      · simp [MessageRateLimiter.check_limit, hb, hr]
      · simp [MessageRateLimiter.check_limit, hb, hr]
      · funext t
        by_cases hc : t = classify_message msg
        · subst hc
          simp [MessageRateLimiter.check_limit, hb, hr]
        · simp [MessageRateLimiter.check_limit, hb, hr, hc]

/-- C1: for every outbound message, the decorator's `send` either is denied by
the rate check — returning that rate-limit error wrapped in the `RateLimit`
variant, with the inner transport completely untouched — or is allowed, in
which case the original unmodified message is appended exactly once to the
inner transport's send log and the inner result is propagated, an inner
failure being wrapped as the `Transport` variant, which is distinct from the
`RateLimit` variant. -/
theorem send_spec {E Rx : Type} (now : Rat) (st : RateLimitedTransport E Rx)
    (item : JsonRpcMessage) :
    (∀ e : E, ∀ er : RateLimitError,
      (RateLimitedTransportError.Transport e : RateLimitedTransportError E) ≠ .RateLimit er) ∧
    (match (st.rate_limiter.check_limit now item).1 with
     | .error er =>
       (st.send now item).1 = .error (.RateLimit er) ∧
       (st.send now item).2.inner = st.inner
     | .ok _ =>
       (st.send now item).2.inner = { st.inner with sent := st.inner.sent ++ [item] } ∧
       (st.send now item).1 = (match st.inner.send_result item with
         | none => .ok ()
         | some e => .error (.Transport e))) := by
  refine ⟨fun e er h => RateLimitedTransportError.noConfusion h, ?_⟩
  rcases hc : (st.rate_limiter.check_limit now item).1 with er | u
  · simp only [RateLimitedTransport.send, hc]
    constructor <;> trivial
  · simp only [RateLimitedTransport.send, hc]
    rcases hs : st.inner.send_result item with _ | e <;>
      simp only [hs] <;> constructor <;> trivial

/-- C9: `receive` and `close` pass straight through to the inner transport and
never read or mutate limiter state: `receive` yields the head of the inner
queue whatever the limiter holds, `close` forwards the inner outcome with an
inner failure wrapped as the `Transport` variant, and neither call changes any
bucket. -/
theorem receive_close_frame {E Rx : Type} (st : RateLimitedTransport E Rx) :
    st.receive.1 = st.inner.recv_queue.head? ∧
    st.receive.2.rate_limiter = st.rate_limiter ∧
    (∀ rl : MessageRateLimiter,
      (RateLimitedTransport.receive { st with rate_limiter := rl }).1 = st.receive.1) ∧
    st.close.2 = st ∧
    (st.close.1 = match st.inner.close_result with
      | none => .ok ()
      | some e => .error (.Transport e)) ∧
    (∀ rl : MessageRateLimiter,
      (RateLimitedTransport.close { st with rate_limiter := rl }).1 = st.close.1) := by
  refine ⟨rfl, rfl, fun rl => rfl, ?_, ?_, ?_⟩
  · unfold RateLimitedTransport.close
    rcases st.inner.close_result with _ | e <;> rfl
  · unfold RateLimitedTransport.close
    rcases st.inner.close_result with _ | e <;> rfl
  · intro rl
    unfold RateLimitedTransport.close
    rcases st.inner.close_result with _ | e <;> rfl

/-- A consume succeeds whenever the refilled token count reaches one. -/
theorem TokenBucket.try_consume_fst_true (b : TokenBucket) (now : Rat)
    (h : 1 ≤ (b.refill now).tokens) : (b.try_consume now).1 = true := by
  unfold TokenBucket.try_consume
  dsimp only
  rw [if_pos h]

/-- C8: from any non-negative token count, with a valid configuration
(`rate ≥ 1`, `burst ≥ 1`), a `try_consume` exactly `1/rate` seconds after the
last refill succeeds: the refill adds `(1/rate) * rate = 1` token and the
clamp cannot push the count below one because `burst ≥ 1`. -/
theorem consume_after_one_over_rate (b : TokenBucket)
    (hrate1 : 1 ≤ b.config.max_per_second)
    (hburst1 : 1 ≤ b.config.burst_capacity)
    (htok : 0 ≤ b.tokens) :
    (b.try_consume (b.last_refill + 1 / (b.config.max_per_second : Rat))).1 = true := by
  apply TokenBucket.try_consume_fst_true
  unfold TokenBucket.refill
  dsimp only
  have hr0 : (0 : Rat) < (b.config.max_per_second : Rat) := by exact_mod_cast hrate1
  have hB1 : (1 : Rat) ≤ (b.config.burst_capacity : Rat) := by exact_mod_cast hburst1
  have e1 : b.last_refill + 1 / (b.config.max_per_second : Rat) - b.last_refill =
      1 / (b.config.max_per_second : Rat) := by ring
  have h2 : (0 : Rat) ≤ 1 / (b.config.max_per_second : Rat) :=
    div_nonneg zero_le_one (le_of_lt hr0)
  rw [e1, max_eq_left h2]
  have h3 : 1 / (b.config.max_per_second : Rat) ≤ MAX_ELAPSED_SECS := by
    have hle : 1 / (b.config.max_per_second : Rat) ≤ 1 := by
      rw [div_le_one hr0]
      exact_mod_cast hrate1
    unfold MAX_ELAPSED_SECS
    linarith
  rw [min_eq_left h3, one_div_mul_cancel (ne_of_gt hr0)]
  have h5 : (1 : Rat) ≤ min (b.tokens + (1 + 0)) ((b.config.burst_capacity : Rat)) :=
    le_min (by linarith) hB1
  exact le_trans h5 (le_max_left _ _)

/-- Witness for `consume_after_one_over_rate`: an empty bucket with rate 2 and
burst 1 admits a consume after half a second. -/
theorem consume_after_one_over_rate_witness :
    1 ≤ (⟨0, 0, ⟨2, 1⟩⟩ : TokenBucket).config.max_per_second ∧
    1 ≤ (⟨0, 0, ⟨2, 1⟩⟩ : TokenBucket).config.burst_capacity ∧
    (0 : Rat) ≤ (⟨0, 0, ⟨2, 1⟩⟩ : TokenBucket).tokens ∧
    ((⟨0, 0, ⟨2, 1⟩⟩ : TokenBucket).try_consume
      ((⟨0, 0, ⟨2, 1⟩⟩ : TokenBucket).last_refill +
        1 / ((⟨0, 0, ⟨2, 1⟩⟩ : TokenBucket).config.max_per_second : Rat))).1 = true :=
  ⟨by decide, by decide, le_refl 0,
    consume_after_one_over_rate (⟨0, 0, ⟨2, 1⟩⟩ : TokenBucket)
      (by decide) (by decide) (le_refl 0)⟩

end RateLimited
